import Mathlib

/-!
Shallow embedding of `src/storage/redis/redis.go` (package `redis` of the
chihaya tracker), together with the pieces of the `storage` package and of
the redigo client that the file uses but that live outside the sources at
hand; those pieces are modelled from the specification and marked as such.

The backing store is modelled as a map from keys to flat field-value
records.  A connection carries a buffer of commands queued with `Send`
(redigo semantics: `Send(commandName, args...)` queues one command whose
name is the first argument) plus fault-injection slots that let a theorem
exercise the error paths (`Send` failing, `EXEC` failing, `HGETALL`
failing).
-/

set_option autoImplicit false

namespace ChihayaRedis

/-- Error values observable from this layer.  `txDone` models
`storage.ErrTxDone` (the spec's `TransactionClosedError`), `decodeFail` the
spec's `DecodeError`, `connFail` a store/connection failure, and
`slotBounds` the spec's `SlotBoundsError` (named by the spec; the source
never produces it). -/
inductive Err where
  | txDone
  | decodeFail
  | connFail (msg : String)
  | slotBounds
deriving DecidableEq

/-- One queued store command, redigo style: a command name plus its
arguments, each sent as a separate protocol word. -/
structure Cmd where
  name : String
  args : List String
deriving DecidableEq

/-- The backing key-value store: each key holds a flat field-value record
(a Redis hash). -/
structure Store where
  hashes : List (String × List (String × String))
deriving DecidableEq

/-- Record stored at a key; the empty record means the key is absent
(exactly what `HGETALL` on a missing key returns). -/
def Store.getHash (st : Store) (k : String) : List (String × String) :=
  match st.hashes.find? (fun p => p.1 == k) with
  | some p => p.2
  | none => []

/-- Set one field of a flat record, appending when the field is new. -/
def setField (r : List (String × String)) (f v : String) : List (String × String) :=
  if r.any (fun p => p.1 == f) then
    r.map (fun p => if p.1 == f then (p.1, v) else p)
  else r ++ [(f, v)]

/-- The store's hash-field-set primitive (`HSET key field value`). -/
def Store.hset (st : Store) (k f v : String) : Store :=
  if st.hashes.any (fun p => p.1 == k) then
    ⟨st.hashes.map (fun p => if p.1 == k then (p.1, setField p.2 f v) else p)⟩
  else ⟨st.hashes ++ [(k, setField [] f v)]⟩

/-- Apply one queued command to the store.  Only a well-formed
`HSET key field value` (command name exactly "HSET", three arguments)
changes the store; `MULTI` and unknown or malformed commands change
nothing (the store rejects an unknown command name). -/
def applyCmd (st : Store) (c : Cmd) : Store :=
  if c.name == "HSET" then
    match c.args with
    | [k, f, v] => st.hset k f v
    | _ => st
  else st

/-- A pooled connection: whether it has been released (`Close` called), the
commands buffered by `Send`, and fault-injection slots making `Send` or
`EXEC` fail with a given error. -/
structure Conn where
  closed : Bool
  buffer : List Cmd
  sendErr : Option Err
  execErr : Option Err
deriving DecidableEq

/-- redigo `Conn.Send`: buffer one command, or fail, leaving the buffer
unchanged, when the connection's write fails. -/
def Conn.send (c : Conn) (cmd : Cmd) : Except Err Conn :=
  match c.sendErr with
  | some e => .error e
  | none => .ok { c with buffer := c.buffer ++ [cmd] }

/-- `Conn.Close`: release the connection back to the pool. -/
def Conn.close (c : Conn) : Conn :=
  { c with closed := true }

/-- `Do("EXEC")`: submit the buffered batch.  On success every buffered
command is applied, in order, as one atomic batch; on failure the store is
untouched. -/
def Conn.exec (c : Conn) (st : Store) : Except Err (Conn × Store) :=
  match c.execErr with
  | some e => .error e
  | none => .ok ({ c with buffer := [] }, List.foldl applyCmd st c.buffer)

/-- Modelled from the spec: `storage.User` (outside the sources at hand) —
unique credential, total slots, slots in use. -/
structure User where
  passkey : String
  slots : Int
  slotsUsed : Int
deriving DecidableEq

/-- Modelled from the spec: `storage.Torrent` hash record (outside the
sources at hand) — unique infohash and pruned/active status flag; the
seeder/leecher sets live under derived keys of the store, not in this
record. -/
structure Torrent where
  infohash : String
  status : Int
deriving DecidableEq

/-- Modelled from the spec: `storage.Peer` (outside the sources at hand) —
peer identifier, owning user, network endpoint, transfer counters. -/
structure Peer where
  id : String
  userId : String
  addr : String
  uploaded : Nat
  downloaded : Nat
  remaining : Nat
deriving DecidableEq

/-- First value of a field in a flat record. -/
def fieldOf (r : List (String × String)) (f : String) : Option String :=
  match r.find? (fun p => p.1 == f) with
  | some p => some p.2
  | none => none

/-- Modelled from the spec: the Entity Codec's decode for `User` (redigo
`ScanStruct`, outside the sources at hand).  A malformed or partial record
is a decode error; unknown fields are ignored. -/
def scanUser (r : List (String × String)) : Except Err User :=
  match fieldOf r "Passkey", (fieldOf r "Slots").bind String.toInt?,
        (fieldOf r "SlotsUsed").bind String.toInt? with
  | some pk, some s, some su => .ok ⟨pk, s, su⟩
  | _, _, _ => .error .decodeFail

/-- Modelled from the spec: the Entity Codec's decode for `Torrent`
(redigo `ScanStruct`, outside the sources at hand). -/
def scanTorrent (r : List (String × String)) : Except Err Torrent :=
  match fieldOf r "Infohash", (fieldOf r "Status").bind String.toInt? with
  | some ih, some s => .ok ⟨ih, s⟩
  | _, _ => .error .decodeFail

/-- Read-side view of a connection: what `Do("HGETALL", key)` and
`Do("EXISTS", key)` answer, including failure. -/
structure ReadConn where
  hgetall : String → Except Err (List (String × String))
  existsKey : String → Except Err Bool

/-- A healthy connection answering reads from the given store. -/
def storeConn (st : Store) : ReadConn :=
  ⟨fun k => .ok (st.getHash k), fun k => .ok (st.hashes.any (fun p => p.1 == k))⟩

/-- A connection whose reads all fail with the given error. -/
def failConn (e : Err) : ReadConn :=
  ⟨fun _ => .error e, fun _ => .error e⟩

/-- Go's `(entity *T, found bool, err error)` triple. -/
structure FindResult (α : Type) where
  entity : Option α
  found : Bool
  error : Option Err
deriving DecidableEq

/-- `DS.FindUser`: `HGETALL` the record at `pfx ++ "User:" ++ passkey`,
propagating the source's result triple exactly (note the source's
`return nil, true, err` on both error paths). -/
def findUser (pfx passkey : String) (conn : ReadConn) : FindResult User :=
  let key := pfx ++ "User:" ++ passkey
  match conn.hgetall key with
  | .error e => ⟨none, true, some e⟩
  | .ok reply =>
    if reply.length = 0 then ⟨none, false, none⟩
    else
      match scanUser reply with
      | .error e => ⟨none, true, some e⟩
      | .ok u => ⟨some u, true, none⟩

/-- `DS.FindTorrent`: `HGETALL` the record at
`pfx ++ "Torrent:" ++ infohash`; unlike `findUser`, a failed `HGETALL`
returns `found = false` in the source. -/
def findTorrent (pfx infohash : String) (conn : ReadConn) : FindResult Torrent :=
  let key := pfx ++ "Torrent:" ++ infohash
  match conn.hgetall key with
  | .error e => ⟨none, false, some e⟩
  | .ok reply =>
    if reply.length = 0 then ⟨none, false, none⟩
    else
      match scanTorrent reply with
      | .error e => ⟨none, true, some e⟩
      | .ok t => ⟨some t, true, none⟩

/-- `DS.ClientWhitelisted`: key-existence check at
`pfx ++ "Whitelist:" ++ peerID`. -/
def clientWhitelisted (pfx peerID : String) (conn : ReadConn) : Bool × Option Err :=
  let key := pfx ++ "Whitelist:" ++ peerID
  match conn.existsKey key with
  | .error e => (false, some e)
  | .ok b => (b, none)

/-- Configuration consumed by this layer (`config.Storage`): transport,
address, key namespace, pool sizing, and the optional connect timeout. -/
structure StorageConf where
  network : String
  addr : String
  pfx : String
  maxIdleConn : Nat
  idleTimeout : Nat
  connTimeout : Option Nat
deriving DecidableEq

/-- Which dial the pool's dial function performs: a plain blocking dial, or
a dial carrying explicit connect/read/write timeouts. -/
inductive DialCall where
  | plain (network addr : String)
  | withTimeout (network addr : String) (connectT readT writeT : Nat)
deriving DecidableEq

/-- `makeDialFunc`: with a connect timeout configured the source calls
`redis.DialTimeout(network, addr, d, d, d)` — the same duration for the
connect, read and write phases; with none it calls `redis.Dial(network,
addr)`. -/
def makeDialFunc (conf : StorageConf) : DialCall :=
  match conf.connTimeout with
  | some d => .withTimeout conf.network conf.addr d d d
  | none => .plain conf.network conf.addr

/-- A transaction: the key namespace, the `done` flag, and the dedicated
connection it owns. -/
structure Tx where
  pfx : String
  done : Bool
  conn : Conn
deriving DecidableEq

/-- `DS.Begin`: acquire a connection, `Send("MULTI")`, and hand the
connection to the new transaction.  On a `Send` failure the source returns
the error without closing the acquired connection; the pair returned here
exposes the connection's final state so that can be observed. -/
def beginTx (pfx : String) (conn : Conn) : Except Err Tx × Conn :=
  match conn.send ⟨"MULTI", []⟩ with
  | .error e => (.error e, conn)
  | .ok c => (.ok ⟨pfx, false, c⟩, c)

/-- `Tx.close`: mark the transaction done and release its connection.  The
source panics when called twice; every public operation checks `done`
first, so that panic is unreachable through them. -/
def Tx.closeTx (tx : Tx) : Tx :=
  { tx with done := true, conn := tx.conn.close }

/-- `Tx.Commit`: refuse when already done; otherwise `Do("EXEC")`.  On an
`EXEC` failure the source returns the error at once — without calling
`close`, so `done` stays false and the connection stays unreleased.  On
success it closes the transaction. -/
def Tx.commit (tx : Tx) (st : Store) : Tx × Store × Option Err :=
  if tx.done then (tx, st, some .txDone)
  else
    match tx.conn.exec st with
    | .error e => (tx, st, some e)
    | .ok (c, st') => (Tx.closeTx { tx with conn := c }, st', none)

/-- `Tx.Rollback`: refuse when already done; otherwise close without
submitting anything (Redis needs no rollback, `EXEC` is atomic). -/
def Tx.rollback (tx : Tx) : Tx × Option Err :=
  if tx.done then (tx, some .txDone)
  else (tx.closeTx, none)

/-- `Tx.Snatch`: a `TODO` stub in the source — after the `done` check it
does nothing and returns nil. -/
def Tx.snatch (tx : Tx) (_u : User) (_t : Torrent) : Tx × Option Err :=
  if tx.done then (tx, some .txDone) else (tx, none)

/-- `Tx.Unprune`: after the `done` check the source calls
`tx.Send("HSET " + key + " Status 0")` — the whole command line is passed
as redigo's single `commandName` argument, with no further arguments. -/
def Tx.unprune (tx : Tx) (t : Torrent) : Tx × Option Err :=
  if tx.done then (tx, some .txDone)
  else
    let key := tx.pfx ++ "Torrent:" ++ t.infohash
    match tx.conn.send ⟨"HSET " ++ key ++ " Status 0", []⟩ with
    | .error e => (tx, some e)
    | .ok c => ({ tx with conn := c }, none)

/-- `Tx.NewLeecher`: a `TODO` stub in the source — after the `done` check
it does nothing and returns nil. -/
def Tx.newLeecher (tx : Tx) (_t : Torrent) (_p : Peer) : Tx × Option Err :=
  if tx.done then (tx, some .txDone) else (tx, none)

/-- `Tx.RmLeecher`: a `TODO` stub in the source. -/
def Tx.rmLeecher (tx : Tx) (_t : Torrent) (_p : Peer) : Tx × Option Err :=
  if tx.done then (tx, some .txDone) else (tx, none)

/-- `Tx.NewSeeder`: a `TODO` stub in the source. -/
def Tx.newSeeder (tx : Tx) (_t : Torrent) (_p : Peer) : Tx × Option Err :=
  if tx.done then (tx, some .txDone) else (tx, none)

/-- `Tx.RmSeeder`: a `TODO` stub in the source. -/
def Tx.rmSeeder (tx : Tx) (_t : Torrent) (_p : Peer) : Tx × Option Err :=
  if tx.done then (tx, some .txDone) else (tx, none)

/-- `Tx.IncrementSlots`: a `TODO` stub in the source — no bound check, no
write, nil return. -/
def Tx.incrementSlots (tx : Tx) (_u : User) : Tx × Option Err :=
  if tx.done then (tx, some .txDone) else (tx, none)

/-- `Tx.DecrementSlots`: a `TODO` stub in the source. -/
def Tx.decrementSlots (tx : Tx) (_u : User) : Tx × Option Err :=
  if tx.done then (tx, some .txDone) else (tx, none)

/-! Concrete sample values used by witnesses and counterexamples. -/

/-- An already-closed transaction on a released connection. -/
def sampleClosedTx : Tx := ⟨"", true, ⟨true, [], none, none⟩⟩

/-- An open transaction fresh out of `beginTx`: `MULTI` buffered, no
injected faults. -/
def sampleOpenTx : Tx := ⟨"", false, ⟨false, [⟨"MULTI", []⟩], none, none⟩⟩

/-- A sample user. -/
def sampleUser : User := ⟨"abc123", 5, 0⟩

/-- A user whose slots are all in use (`used = total`). -/
def fullUser : User := ⟨"abc123", 2, 2⟩

/-- A user with no slots in use. -/
def zeroUser : User := ⟨"abc123", 2, 0⟩

/-- A sample torrent. -/
def sampleTorrent : Torrent := ⟨"beef", 1⟩

/-- A sample peer. -/
def samplePeer : Peer := ⟨"peer1", "abc123", "10.0.0.1:51413", 0, 0, 0⟩

/-- The empty store. -/
def emptyStore : Store := ⟨[]⟩

/-- A store holding one user record that is malformed: the slot fields are
missing, so the codec's decode fails on it. -/
def malformedUserStore : Store := ⟨[("User:abc123", [("Passkey", "abc123")])]⟩

/-- A store holding one torrent record whose `Status` field is `1`. -/
def prunedStore : Store := ⟨[("Torrent:beef", [("Status", "1")])]⟩

/-- A connection whose next `Send` fails. -/
def sendFailConn : Conn := ⟨false, [], some (.connFail "write failed"), none⟩

/-- An open transaction whose `EXEC` will fail. -/
def execFailTx : Tx := ⟨"", false, ⟨false, [⟨"MULTI", []⟩], none, some (.connFail "exec failed")⟩⟩

/-- C1: the three-state lookup contract fails on the code: a malformed
(undecodable) user record makes `findUser` return the decode error with
`found = true` and a nil entity, where the claim requires `found = false`
alongside any non-nil error. -/
theorem c1_malformed_record_found_true :
    findUser "" "abc123" (storeConn malformedUserStore) =
      ⟨none, true, some .decodeFail⟩ := by
  decide

/-- C2: `NewSeeder` and `NewLeecher` are stubs: calling `newSeeder` then
`newLeecher` on an open transaction queues nothing and returns nil, and
committing leaves the store exactly as it was — the peer ends up in
neither set, not in the leecher set as the claim states. -/
theorem c2_seeder_leecher_stubs_no_effect :
    (sampleOpenTx.newSeeder sampleTorrent samplePeer).2 = none ∧
    ((sampleOpenTx.newSeeder sampleTorrent samplePeer).1.newLeecher sampleTorrent samplePeer).2
      = none ∧
    (((sampleOpenTx.newSeeder sampleTorrent samplePeer).1.newLeecher sampleTorrent
        samplePeer).1.commit emptyStore).2 = (emptyStore, none) ∧
    emptyStore.getHash ("Torrent:" ++ sampleTorrent.infohash ++ ":Leechers") = [] := by
  decide

/-- C3: `IncrementSlots` and `DecrementSlots` are stubs: at `used = total`
the increment returns nil — not `SlotBoundsError` — and queues no write,
and likewise the decrement at `used = 0`. -/
theorem c3_slot_stubs_no_bound_errors :
    sampleOpenTx.incrementSlots fullUser = (sampleOpenTx, none) ∧
    sampleOpenTx.decrementSlots zeroUser = (sampleOpenTx, none) := by
  decide

/-- C4: on a closed transaction every operation — the eight mutations,
`Commit` and `Rollback` — returns `ErrTxDone` at once, leaving the
transaction (hence its command buffer) and the store untouched. -/
theorem c4_closed_tx_all_ops_err (tx : Tx) (st : Store) (u : User) (t : Torrent)
    (p : Peer) (h : tx.done = true) :
    tx.snatch u t = (tx, some .txDone) ∧
    tx.unprune t = (tx, some .txDone) ∧
    tx.newLeecher t p = (tx, some .txDone) ∧
    tx.rmLeecher t p = (tx, some .txDone) ∧
    tx.newSeeder t p = (tx, some .txDone) ∧
    tx.rmSeeder t p = (tx, some .txDone) ∧
    tx.incrementSlots u = (tx, some .txDone) ∧
    tx.decrementSlots u = (tx, some .txDone) ∧
    tx.commit st = (tx, st, some .txDone) ∧
    tx.rollback = (tx, some .txDone) := by
  simp [Tx.snatch, Tx.unprune, Tx.newLeecher, Tx.rmLeecher, Tx.newSeeder, Tx.rmSeeder,
    Tx.incrementSlots, Tx.decrementSlots, Tx.commit, Tx.rollback, h]

/-- C4 witness: the closed-transaction contract evaluated on a concrete
closed transaction, store, user, torrent and peer. -/
theorem c4_closed_tx_all_ops_err_witness :
    sampleClosedTx.snatch sampleUser sampleTorrent = (sampleClosedTx, some .txDone) ∧
    sampleClosedTx.unprune sampleTorrent = (sampleClosedTx, some .txDone) ∧
    sampleClosedTx.newLeecher sampleTorrent samplePeer = (sampleClosedTx, some .txDone) ∧
    sampleClosedTx.rmLeecher sampleTorrent samplePeer = (sampleClosedTx, some .txDone) ∧
    sampleClosedTx.newSeeder sampleTorrent samplePeer = (sampleClosedTx, some .txDone) ∧
    sampleClosedTx.rmSeeder sampleTorrent samplePeer = (sampleClosedTx, some .txDone) ∧
    sampleClosedTx.incrementSlots sampleUser = (sampleClosedTx, some .txDone) ∧
    sampleClosedTx.decrementSlots sampleUser = (sampleClosedTx, some .txDone) ∧
    sampleClosedTx.commit emptyStore = (sampleClosedTx, emptyStore, some .txDone) ∧
    sampleClosedTx.rollback = (sampleClosedTx, some .txDone) :=
  c4_closed_tx_all_ops_err sampleClosedTx emptyStore sampleUser sampleTorrent samplePeer rfl

/-- C5 counterexample: on a concrete open transaction whose `EXEC` fails,
`Commit` returns the error and leaves the store unchanged, but the
transaction is not closed — `done` is still false and the connection's
`closed` flag is still false, contrary to the claim that the connection is
released. -/
theorem c5_counterexample :
    (execFailTx.commit emptyStore).2.2 = some (.connFail "exec failed") ∧
    (execFailTx.commit emptyStore).2.1 = emptyStore ∧
    (execFailTx.commit emptyStore).1.done = false ∧
    (execFailTx.commit emptyStore).1.conn.closed = false := by
  decide

/-- C5 (amended): if `Commit`'s `EXEC` fails on an open transaction, the
error is returned and the transaction and store are returned exactly as
they were — no buffered operation takes effect, the `done` flag stays
false and the connection is not released. -/
theorem c5_commit_exec_failure (tx : Tx) (st : Store) (e : Err)
    (hdone : tx.done = false) (hexec : tx.conn.execErr = some e) :
    tx.commit st = (tx, st, some e) := by
  simp [Tx.commit, Conn.exec, hdone, hexec]

/-- C5 witness: the amended commit-failure behaviour evaluated on the
concrete failing transaction. -/
theorem c5_commit_exec_failure_witness :
    execFailTx.commit emptyStore = (execFailTx, emptyStore, some (.connFail "exec failed")) :=
  c5_commit_exec_failure execFailTx emptyStore (.connFail "exec failed") rfl rfl

/-- C6: on a failed `HGETALL`, `findUser` returns `(nil, true, err)` while
`findTorrent` returns `(nil, false, err)` — the inconsistency the spec
flags. -/
theorem c6_hgetall_failure_found_flags (pfx passkey infohash : String) (e : Err) :
    findUser pfx passkey (failConn e) = ⟨none, true, some e⟩ ∧
    findTorrent pfx infohash (failConn e) = ⟨none, false, some e⟩ :=
  ⟨rfl, rfl⟩

/-- C7: `Begin` on a connection whose `Send("MULTI")` fails returns the
error while the acquired connection is still unreleased (`closed = false`)
— the connection is leaked, contrary to the claim that every error path
releases it. -/
theorem c7_begin_leaks_conn_on_error :
    beginTx "" sendFailConn = (.error (.connFail "write failed"), sendFailConn) ∧
    sendFailConn.closed = false :=
  ⟨rfl, rfl⟩

/-- C8: `Unprune` returns nil and queues exactly one command — but that
command is the whole line `"HSET Torrent:beef Status 0"` passed as the
command name with no arguments, not a hash-field-set; committing it
against a store whose record has `Status = "1"` leaves the field at `"1"`,
so the pruned flag is never cleared. -/
theorem c8_unprune_sends_malformed_command :
    (sampleOpenTx.unprune sampleTorrent).2 = none ∧
    (sampleOpenTx.unprune sampleTorrent).1.conn.buffer =
      [⟨"MULTI", []⟩, ⟨"HSET Torrent:beef Status 0", []⟩] ∧
    (((sampleOpenTx.unprune sampleTorrent).1.commit prunedStore).2.1).getHash "Torrent:beef"
      = [("Status", "1")] := by
  decide

/-- C9: the pool's dial function applies the configured timeout uniformly
to the connect, read and write phases when one is set, and performs a
plain blocking dial when none is configured. -/
theorem c9_dial_timeout_uniform (conf : StorageConf) :
    (∀ d, conf.connTimeout = some d →
      makeDialFunc conf = .withTimeout conf.network conf.addr d d d) ∧
    (conf.connTimeout = none → makeDialFunc conf = .plain conf.network conf.addr) := by
  constructor
  · intro d h
    simp [makeDialFunc, h]
  · intro h
    simp [makeDialFunc, h]

/-- C9 witness: the dial behaviour evaluated on a configuration with a
5-unit timeout and on one with no timeout. -/
theorem c9_dial_timeout_uniform_witness :
    makeDialFunc ⟨"tcp", "localhost:6379", "", 3, 240, some 5⟩ =
      .withTimeout "tcp" "localhost:6379" 5 5 5 ∧
    makeDialFunc ⟨"tcp", "localhost:6379", "", 3, 240, none⟩ =
      .plain "tcp" "localhost:6379" :=
  ⟨(c9_dial_timeout_uniform ⟨"tcp", "localhost:6379", "", 3, 240, some 5⟩).1 5 rfl,
   (c9_dial_timeout_uniform ⟨"tcp", "localhost:6379", "", 3, 240, none⟩).2 rfl⟩

/-- C10: `Rollback` on an open transaction returns nil, marks the
transaction done and releases its connection, with the command buffer left
unsent (nothing is submitted to the store, which `rollback` never even
touches). -/
theorem c10_rollback_open_tx (tx : Tx) (h : tx.done = false) :
    tx.rollback = (⟨tx.pfx, true, { tx.conn with closed := true }⟩, none) := by
  simp [Tx.rollback, Tx.closeTx, Conn.close, h]

/-- C10 witness: rollback of the concrete open transaction. -/
theorem c10_rollback_open_tx_witness :
    sampleOpenTx.rollback =
      (⟨sampleOpenTx.pfx, true, { sampleOpenTx.conn with closed := true }⟩, none) :=
  c10_rollback_open_tx sampleOpenTx rfl

end ChihayaRedis
